import Mathlib

/-!
Verification of the ViewingSpace subsystem (src/core/frontend/src/ViewingSpace.ts).

The development shallowly embeds the construction algorithm of `ViewingSpace`
and its query surface over exact rationals.  Machine floating point numbers are
modelled as `ℚ`; external geometry primitives (`@bentley/geometry-core`) and the
`ViewState` surface, which belong to this repository but are not among the
staged source files, are modelled from the specification where the code needs
them, each such definition marked `Modelled from the spec:` in its doc comment.
`Math.sqrt` (used only for the horizon-distance heuristic) and the lens-angle
tangent are irrational on rationals and are threaded as explicit functional
parameters; no claim below depends on their values.
-/

namespace VSpace

/-- A 3d point or vector (TS `Point3d` / `Vector3d`): three exact rationals
standing for the doubles of the source. -/
@[ext] structure Vec3 where
  x : ℚ
  y : ℚ
  z : ℚ
  deriving DecidableEq, Repr

namespace Vec3

def zero : Vec3 := ⟨0, 0, 0⟩

/-- Modelled from the spec: `Vector3d.unitZ()` of geometry-core, the world-up
unit vector. -/
def unitZ : Vec3 := ⟨0, 0, 1⟩

def add (a b : Vec3) : Vec3 := ⟨a.x + b.x, a.y + b.y, a.z + b.z⟩

def sub (a b : Vec3) : Vec3 := ⟨a.x - b.x, a.y - b.y, a.z - b.z⟩

def smul (q : ℚ) (a : Vec3) : Vec3 := ⟨q * a.x, q * a.y, q * a.z⟩

def dot (a b : Vec3) : ℚ := a.x * b.x + a.y * b.y + a.z * b.z

def cross (a b : Vec3) : Vec3 :=
  ⟨a.y * b.z - a.z * b.y, a.z * b.x - a.x * b.z, a.x * b.y - a.y * b.x⟩

end Vec3

/-- Modelled from the spec: geometry-core `XYZ.isAlmostEqual`, the tight
componentwise tolerance comparison (`Geometry.smallMetricDistance`, one
millionth) used by `alignWithRootZ` to decide whether the rotation already has
world-up as its third row. -/
def IsAlmostEqualVec (a b : Vec3) : Prop :=
  |a.x - b.x| < 1/1000000 ∧ |a.y - b.y| < 1/1000000 ∧ |a.z - b.z| < 1/1000000

instance (a b : Vec3) : Decidable (IsAlmostEqualVec a b) := by
  unfold IsAlmostEqualVec; infer_instance

/-- A 3x3 matrix (TS `Matrix3d`), row major: `aij` is row `i`, column `j`. -/
@[ext] structure Matrix3 where
  a00 : ℚ
  a01 : ℚ
  a02 : ℚ
  a10 : ℚ
  a11 : ℚ
  a12 : ℚ
  a20 : ℚ
  a21 : ℚ
  a22 : ℚ
  deriving DecidableEq, Repr

namespace Matrix3

def idM : Matrix3 := ⟨1, 0, 0, 0, 1, 0, 0, 0, 1⟩

/-- `Matrix3d.multiplyVectorInPlace`: the product `M · v`. -/
def mulVec (m : Matrix3) (v : Vec3) : Vec3 :=
  ⟨m.a00 * v.x + m.a01 * v.y + m.a02 * v.z,
   m.a10 * v.x + m.a11 * v.y + m.a12 * v.z,
   m.a20 * v.x + m.a21 * v.y + m.a22 * v.z⟩

/-- `Matrix3d.multiplyTransposeVectorInPlace`: the product `Mᵀ · v`. -/
def mulTransposeVec (m : Matrix3) (v : Vec3) : Vec3 :=
  ⟨m.a00 * v.x + m.a10 * v.y + m.a20 * v.z,
   m.a01 * v.x + m.a11 * v.y + m.a21 * v.z,
   m.a02 * v.x + m.a12 * v.y + m.a22 * v.z⟩

def mul (a b : Matrix3) : Matrix3 :=
  ⟨a.a00 * b.a00 + a.a01 * b.a10 + a.a02 * b.a20,
   a.a00 * b.a01 + a.a01 * b.a11 + a.a02 * b.a21,
   a.a00 * b.a02 + a.a01 * b.a12 + a.a02 * b.a22,
   a.a10 * b.a00 + a.a11 * b.a10 + a.a12 * b.a20,
   a.a10 * b.a01 + a.a11 * b.a11 + a.a12 * b.a21,
   a.a10 * b.a02 + a.a11 * b.a12 + a.a12 * b.a22,
   a.a20 * b.a00 + a.a21 * b.a10 + a.a22 * b.a20,
   a.a20 * b.a01 + a.a21 * b.a11 + a.a22 * b.a21,
   a.a20 * b.a02 + a.a21 * b.a12 + a.a22 * b.a22⟩

def transposeM (m : Matrix3) : Matrix3 :=
  ⟨m.a00, m.a10, m.a20, m.a01, m.a11, m.a21, m.a02, m.a12, m.a22⟩

/-- `Matrix3d.rowZ()` / `getRow(2)`: the third row as a vector. -/
def rowZvec (m : Matrix3) : Vec3 := ⟨m.a20, m.a21, m.a22⟩

/-- Column 0 of the matrix as a vector. -/
def col0 (m : Matrix3) : Vec3 := ⟨m.a00, m.a10, m.a20⟩

/-- Build a matrix from three columns. -/
def fromCols (c0 c1 c2 : Vec3) : Matrix3 :=
  ⟨c0.x, c1.x, c2.x, c0.y, c1.y, c2.y, c0.z, c1.z, c2.z⟩

/-- Both orthonormality identities of a rigid matrix.  The source maintains
this invariant for every view rotation ("`rotation` is always orthonormal"). -/
def IsOrthonormal (m : Matrix3) : Prop :=
  mul m.transposeM m = idM ∧ mul m m.transposeM = idM

instance (m : Matrix3) : Decidable (IsOrthonormal m) := by
  unfold IsOrthonormal; infer_instance

end Matrix3

/-- An axis-aligned range (TS `Range3d` in its non-null state). -/
@[ext] structure Range3 where
  low : Vec3
  high : Vec3
  deriving DecidableEq, Repr

namespace Range3

/-- `Range3d.isNull`: true when any low component exceeds its high. -/
def IsNullR (r : Range3) : Prop :=
  r.high.x < r.low.x ∨ r.high.y < r.low.y ∨ r.high.z < r.low.z

instance (r : Range3) : Decidable r.IsNullR := by
  unfold IsNullR; infer_instance

/-- `Range3d.extendPoint`: grow the range to contain a point. -/
def extendPt (r : Range3) (p : Vec3) : Range3 :=
  ⟨⟨min r.low.x p.x, min r.low.y p.y, min r.low.z p.z⟩,
   ⟨max r.high.x p.x, max r.high.y p.y, max r.high.z p.z⟩⟩

/-- The eight corners of the range, in NPC corner order
(000, 100, 010, 110, 001, 101, 011, 111). -/
def corners (r : Range3) : List Vec3 :=
  [⟨r.low.x, r.low.y, r.low.z⟩, ⟨r.high.x, r.low.y, r.low.z⟩,
   ⟨r.low.x, r.high.y, r.low.z⟩, ⟨r.high.x, r.high.y, r.low.z⟩,
   ⟨r.low.x, r.low.y, r.high.z⟩, ⟨r.high.x, r.low.y, r.high.z⟩,
   ⟨r.low.x, r.high.y, r.high.z⟩, ⟨r.high.x, r.high.y, r.high.z⟩]

/-- `Range3d.fractionToPoint`: interpolate a fractional position inside the
range (the formula holds whatever the ordering of `low` and `high`, exactly as
in the source, where `getViewCorners` stores a Y-inverted box). -/
def fractionToPoint (r : Range3) (p : Vec3) : Vec3 :=
  ⟨r.low.x + p.x * (r.high.x - r.low.x),
   r.low.y + p.y * (r.high.y - r.low.y),
   r.low.z + p.z * (r.high.z - r.low.z)⟩

end Range3

/-- A possibly-null range: `none` stands for the `Range3d.createNull()`
sentinel state of geometry-core. -/
def ORange := Option Range3

instance : DecidableEq ORange := by unfold ORange; infer_instance

/-- `Range3d.extendPoint` acting on a possibly-null range: extending the null
range yields the one-point range. -/
def extendO (r : ORange) (p : Vec3) : ORange :=
  match r with
  | none => some ⟨p, p⟩
  | some r => some (r.extendPt p)

/-- The range of a nonempty list of points: fold of `extendPt` from the first
point (`Frustum.toRange` of the transformed corners below). -/
def rangeOfFold (p : Vec3) (ps : List Vec3) : Range3 :=
  ps.foldl Range3.extendPt ⟨p, p⟩

/-- Lines 140-144 of ViewingSpace.ts: rotate the corners of a frustum built
from the range into view-aligned coordinates and take the range of the
result. -/
def transformedRange (rot : Matrix3) (r : Range3) : Range3 :=
  rangeOfFold (rot.mulVec ⟨r.low.x, r.low.y, r.low.z⟩)
    ([⟨r.high.x, r.low.y, r.low.z⟩, ⟨r.low.x, r.high.y, r.low.z⟩,
      ⟨r.high.x, r.high.y, r.low.z⟩, ⟨r.low.x, r.low.y, r.high.z⟩,
      ⟨r.high.x, r.low.y, r.high.z⟩, ⟨r.low.x, r.high.y, r.high.z⟩,
      ⟨r.high.x, r.high.y, r.high.z⟩].map rot.mulVec)

/-- Modelled from the spec: a `Map4d`, one of the invertible projective maps the
component stores, reduced to the pair of point maps the staged code applies
(`transform0` with quiet normalization as `fwd`, `transform1` as `inv`). -/
structure Map4 where
  fwd : Vec3 → Vec3
  inv : Vec3 → Vec3

namespace Map4

/-- `Map4d.createIdentity()`. -/
def idMap : Map4 := ⟨fun p => p, fun p => p⟩

/-- `Map4d.multiplyMapMap`: composition applying `other` first, as in
`worldToViewMap = npcToView.multiplyMapMap(worldToNpc)`. -/
def compose (m other : Map4) : Map4 :=
  ⟨fun p => m.fwd (other.fwd p), fun p => other.inv (m.inv p)⟩

end Map4

/-- Modelled from the spec: a displayed plane (origin plus unit normal,
`Plane3dByOriginAndUnitNormal`) that the computed volume must enclose. -/
structure DisplayPlane where
  porigin : Vec3
  pnormal : Vec3
  deriving DecidableEq

/-- Modelled from the spec: the camera of a 3d view — eye point, focus
distance, lens.  `tanHalfLens` stands for `Math.tan(lensAngle/2)`, irrational
in general and therefore carried as a separate rational parameter;
`focusValid` is the `isFocusValid` report consulted by `validateCamera`
(`validateLens` is modelled as the identity: the spec gives it no semantics
beyond "validate the lens", and no claim consults the lens). -/
structure Camera where
  eyePoint : Vec3
  focusDistance : ℚ
  tanHalfLens : ℚ
  focusValid : Bool
  deriving DecidableEq

/-- The view's configured extent limits (min/max clamp bounds). -/
structure ExtentLimits where
  emin : ℚ
  emax : ℚ
  deriving DecidableEq

/-- Result of the view's world-to-NPC map builder: a possibly-absent map plus
the frustum fraction. -/
structure NpcMapResult where
  map : Option Map4
  frustFraction : ℚ

/-- Modelled from the spec: the narrow `ViewState` interface the component
consumes — origin, extents, rotation, 2d/3d and manipulation flags, camera,
extent limits, minimum front distance, the viewed-extents query (`none` for the
null range) and the world-to-NPC map builder
(rotation, origin, delta, enforce-front-back-ratio flag). -/
structure ViewState where
  origin : Vec3
  extents : Vec3
  rotMat : Matrix3
  is3d : Bool
  allow3dManipulations : Bool
  isCameraOn : Bool
  camera : Camera
  extentLimits : ExtentLimits
  forceMinFrontDist : ℚ
  viewedExtents : Option Range3
  computeWorldToNpc : Matrix3 → Vec3 → Vec3 → Bool → NpcMapResult

/-- Modelled from the spec: the `Viewport` surface consumed — pixel
width/height of the view rectangle and the list of displayed planes. -/
structure Viewport where
  view : ViewState
  width : ℚ
  height : ℚ
  displayedPlanes : List DisplayPlane

/-- The coordinate systems of `getFrustum` (src `CoordSystem`, external enum;
modelled from the spec: World, NPC and View). -/
inductive CoordSystem where
  | view : CoordSystem
  | npc : CoordSystem
  | world : CoordSystem
  deriving DecidableEq

/-- Drop the world-up component of a vector: `v - (v·ẑ)ẑ`, the Gram-Schmidt
projection step against the forced third column. -/
def zPerp (v : Vec3) : Vec3 := v.sub (Vec3.smul (Vec3.dot v Vec3.unitZ) Vec3.unitZ)

/-- Modelled from the spec: `Matrix3d.createRigidFromMatrix3d` with axis order
ZXY, applied (as in `alignWithRootZ`) after the third column has been forced
to the exact unit Z vector.  The spec: the third axis is primary and
re-normalized first (exact here, since it is exactly unit), the first axis is
re-orthogonalized against it, and the second is their cross product.  The final
per-axis scalings of the first two axes are square roots, irrational on ℚ, and
are omitted: they do not affect the third column, the only part of the result
any claim (or the staged code's observable behaviour modelled here) consults. -/
def gramFix (m : Matrix3) : Matrix3 :=
  Matrix3.fromCols (zPerp m.col0) (Vec3.cross Vec3.unitZ (zPerp m.col0)) Vec3.unitZ

/-- Lines 91-100 (`alignWithRootZ`): if the rotation's third row is already
almost world-up, leave everything unchanged; otherwise transpose, force the
third column to unit Z, rigidly reorthonormalize, transpose back, and write
the corrected rotation back onto the source view (`view.setRotation`). -/
def alignWithRootZ (view : ViewState) (rot : Matrix3) : Matrix3 × ViewState :=
  if IsAlmostEqualVec Vec3.unitZ rot.rowZvec then (rot, view)
  else ((gramFix rot.transposeM).transposeM,
        { view with rotMat := (gramFix rot.transposeM).transposeM })

/-- The focus distance `validateCamera` computes: `maxDelta / (2·tan(lens/2))`,
floored at half the Z extent. -/
def vcFocus (view : ViewState) : ℚ :=
  max ((if view.extents.y < view.extents.x then view.extents.x else view.extents.y)
        / (2 * view.camera.tanHalfLens))
      (view.extents.z / 2)

/-- Lines 102-125 (`validateCamera`): for a 3d view whose camera reports an
invalid focus distance, recompute a focus distance from the larger X/Y extent
and the lens half-angle tangent, floor it at half the Z extent, derive an eye
point centered over the extents, convert it to world coordinates through the
transposed rotation plus the view origin, and commit both the eye point and the
focus distance back onto the camera. -/
def validateCamera (view : ViewState) (rot : Matrix3) : ViewState :=
  if view.is3d = false then view
  else if view.camera.focusValid = true then view
  else
    { view with camera :=
      { view.camera with
        eyePoint :=
          (rot.mulTransposeVec
            ⟨view.extents.x / 2, view.extents.y / 2,
             view.extents.z / 2 + vcFocus view⟩).add view.origin,
        focusDistance := vcFocus view } }

/-- The eight corners of the NPC unit cube, in NPC order (the points a freshly
constructed `Frustum` holds). -/
def npcCorners : List Vec3 :=
  [⟨0, 0, 0⟩, ⟨1, 0, 0⟩, ⟨0, 1, 0⟩, ⟨1, 1, 0⟩,
   ⟨0, 0, 1⟩, ⟨1, 0, 1⟩, ⟨0, 1, 1⟩, ⟨1, 1, 1⟩]

/-- Modelled from the spec: `Ray3d.createStartEnd(a, b).intersectionWithPlane`
— the fraction along the ray `a + t(b-a)` at which it meets the plane, with
the degenerate (parallel) denominator reported as no intersection.  The
floating small-divisor guard of geometry-core is modelled as the exact-zero
test, the only rational approximation of it. -/
def rayPlaneIntersection (a b : Vec3) (p : DisplayPlane) : Option (ℚ × Vec3) :=
  if Vec3.dot (b.sub a) p.pnormal = 0 then none
  else
    some (Vec3.dot (p.porigin.sub a) p.pnormal / Vec3.dot (b.sub a) p.pnormal,
          a.add (Vec3.smul
            (Vec3.dot (p.porigin.sub a) p.pnormal / Vec3.dot (b.sub a) p.pnormal)
            (b.sub a)))

/-- Lines 193-199: intersect the four back-to-front frustum edges with a
displayed plane, extending the working range with every intersection in front
of the camera (any intersection for camera-off views); a missed ray marks the
horizon as included.  Returns the extended range and the include-horizon flag. -/
def extendPlaneRays (isCam : Bool) (p : DisplayPlane) (pts : List Vec3)
    (ext : ORange) : ORange × Bool :=
  [0, 1, 2, 3].foldl
    (fun acc i =>
      match rayPlaneIntersection (pts.getD (i + 4) Vec3.zero) (pts.getD i Vec3.zero) p with
      | some (t, pt) =>
          if isCam = false ∨ 0 < t then (extendO acc.1 pt, acc.2) else (acc.1, true)
      | none => (acc.1, true))
    (ext, false)

/-- The horizon extension of lines 200-208: a 10000-unit baseline, raised to
the geometric-horizon distance `sqrt(h² + 2hR)` (WGS84 equatorial radius
`R = 6378137`) when the eye height is positive.  `sq` stands for `Math.sqrt`. -/
def horizonPoint (sq : ℚ → ℚ) (eye viewZ : Vec3) : Vec3 :=
  eye.add (Vec3.smul
    (-(if 0 < eye.z then max 10000 (sq (eye.z * eye.z + 2 * eye.z * 6378137)) else 10000))
    viewZ)

/-- Lines 200-212: after the ray loop, extend with the horizon point when a ray
missed, and, for camera views, with a point ten units in front of the eye. -/
def planeExtension (sq : ℚ → ℚ) (view : ViewState) (rot : Matrix3)
    (_p : DisplayPlane) (rb : ORange × Bool) : ORange :=
  if view.isCameraOn = true then
    extendO
      (if rb.2 = true then extendO rb.1 (horizonPoint sq view.camera.eyePoint rot.rowZvec)
       else rb.1)
      (view.camera.eyePoint.add (Vec3.smul (-10) rot.rowZvec))
  else
    if rb.2 = true then extendO rb.1 (horizonPoint sq view.camera.eyePoint rot.rowZvec)
    else rb.1

/-- Lines 173-220 (`extendRangeForDisplayedPlanes`), one plane at a time.  A
plane not edge-on to the view intersects the frustum edges computed under a
provisional world-to-NPC map (built without front/back enforcement); if that
builder fails the whole extension returns early with the range accumulated so
far.  A plane parallel to the view direction contributes a nominal ±1 unit of
thickness along its normal. -/
def goPlanes (sq : ℚ → ℚ) (view : ViewState) (rot : Matrix3) (vOrigin vDelta : Vec3) :
    List DisplayPlane → ORange → ORange
  | [], ext => ext
  | p :: rest, ext =>
    if 1/10^16 < Vec3.dot (Vec3.cross rot.rowZvec p.pnormal) (Vec3.cross rot.rowZvec p.pnormal)
    then
      match (view.computeWorldToNpc rot vOrigin vDelta false).map with
      | none => ext
      | some m =>
        goPlanes sq view rot vOrigin vDelta rest
          (planeExtension sq view rot p
            (extendPlaneRays view.isCameraOn p (npcCorners.map m.inv) ext))
    else
      goPlanes sq view rot vOrigin vDelta rest
        (extendO (extendO ext (p.porigin.sub p.pnormal)) (p.porigin.add p.pnormal))

/-- Lines 173-220: `extendRangeForDisplayedPlanes` — a no-op for 2d views,
otherwise the fold above starting from the view's viewed extents. -/
def extendRangeForDisplayedPlanes (sq : ℚ → ℚ) (view : ViewState) (rot : Matrix3)
    (vOrigin vDelta : Vec3) (planes : List DisplayPlane) (ext : ORange) : ORange :=
  if view.is3d = false then ext else goPlanes sq view rot vOrigin vDelta planes ext

/-- Put a point's view-aligned z at `z`, keeping its view-aligned x and y: the
rotate / overwrite-z / rotate-back sequence of lines 146-149. -/
def zSetTo (rot : Matrix3) (o : Vec3) (z : ℚ) : Vec3 :=
  rot.mulTransposeVec ⟨(rot.mulVec o).x, (rot.mulVec o).y, z⟩

/-- Push a point back by `amt` along the view z axis: the rotate / subtract
from z / rotate-back sequence of lines 161-163 and 300-302. -/
def pushBackZ (rot : Matrix3) (o : Vec3) (amt : ℚ) : Vec3 :=
  rot.mulTransposeVec ⟨(rot.mulVec o).x, (rot.mulVec o).y, (rot.mulVec o).z - amt⟩

/-- The camera part of `adjustZPlanes` (lines 146-170), after the view-aligned
extents `tr` are known. -/
def adjustZCamera (view : ViewState) (rot : Matrix3) (origin delta : Vec3)
    (tr : Range3) : Vec3 × Vec3 :=
  if view.isCameraOn = false then
    (zSetTo rot origin tr.low.z, ⟨delta.x, delta.y, tr.high.z - tr.low.z⟩)
  else
    if (rot.mulVec (view.camera.eyePoint.sub (zSetTo rot origin tr.low.z))).z < 1 then
      (pushBackZ rot (zSetTo rot origin tr.low.z)
         (2 - (rot.mulVec (view.camera.eyePoint.sub (zSetTo rot origin tr.low.z))).z),
       ⟨delta.x, delta.y, 1⟩)
    else
      if (rot.mulVec (view.camera.eyePoint.sub (zSetTo rot origin tr.low.z))).z
           < tr.high.z - tr.low.z then
        (zSetTo rot origin tr.low.z,
         ⟨delta.x, delta.y,
          (rot.mulVec (view.camera.eyePoint.sub (zSetTo rot origin tr.low.z))).z⟩)
      else
        (zSetTo rot origin tr.low.z, ⟨delta.x, delta.y, tr.high.z - tr.low.z⟩)

/-- Lines 127-171 (`adjustZPlanes`): for a 3d view, extend the viewed extents
with the displayed planes; if the result is null do nothing; otherwise convert
the extents to view-aligned coordinates, put the origin at their back and the
delta at their depth, and, when a camera is on, keep the volume in front of
the eye: an eye less than one unit in front clamps to a unit-depth volume two
units in front of the eye and returns early, otherwise the depth is capped at
the eye distance. -/
def adjustZPlanes (sq : ℚ → ℚ) (view : ViewState) (rot : Matrix3)
    (planes : List DisplayPlane) (origin delta : Vec3) : Vec3 × Vec3 :=
  if view.is3d = false then (origin, delta)
  else
    match extendRangeForDisplayedPlanes sq view rot origin delta planes view.viewedExtents with
    | none => (origin, delta)
    | some ext =>
      if ext.IsNullR then (origin, delta)
      else adjustZCamera view rot origin delta (transformedRange rot ext)

/-- Line 258: `clampRange`, the min/max clamp of a delta component to the
view's configured extent limits. -/
def clampQ (l : ExtentLimits) (v : ℚ) : ℚ := min (max l.emin v) l.emax

/-- Lines 249-260: the view's extents with every component made non-negative
and the x and y components clamped to the extent limits — the value the
constructor snapshots as `viewDeltaUnexpanded` and starts `delta` from. -/
def clampedDelta (view : ViewState) : Vec3 :=
  ⟨clampQ view.extentLimits |view.extents.x|,
   clampQ view.extentLimits |view.extents.y|,
   |view.extents.z|⟩

/-- The state the construction branches produce before the world-to-NPC map is
built: final origin/delta/rotation, the possibly-mutated source view, and the
z-clip-adjusted flag. -/
structure CoreState where
  corigin : Vec3
  cdelta : Vec3
  crot : Matrix3
  viewA : ViewState
  zClip : Bool

/-- Lines 310-314: the 2d branch — align the rotation with world-up and take a
fixed symmetric one-meter depth band (`frustumDepth2d = Constant.oneMeter`,
i.e. 1). -/
def core2d (view : ViewState) (o0 d0 : Vec3) : CoreState :=
  { corigin := ⟨o0.x, o0.y, -1⟩, cdelta := ⟨d0.x, d0.y, 2⟩,
    crot := (alignWithRootZ view view.rotMat).1,
    viewA := (alignWithRootZ view view.rotMat).2, zClip := false }

/-- The half-depth of the no-manipulations branch: the largest viewed-extents
|z|, one meter when the extents are null, and at least one. -/
def zMaxOf (view : ViewState) : ℚ :=
  max
    (match view.viewedExtents with
     | none => 1
     | some r => if r.IsNullR then 1 else max |r.low.z| |r.high.z|)
    1

/-- Lines 269-282: the 3d branch with 3d manipulations disallowed — align the
rotation with world-up and take a symmetric depth band of the largest viewed
|z| (one meter if the viewed extents are null), at least ±1. -/
def coreNoManip (view : ViewState) (o0 d0 : Vec3) : CoreState :=
  { corigin := ⟨o0.x, o0.y, -(zMaxOf view)⟩, cdelta := ⟨d0.x, d0.y, 2 * zMaxOf view⟩,
    crot := (alignWithRootZ view view.rotMat).1,
    viewA := (alignWithRootZ view view.rotMat).2, zClip := false }

/-- Lines 284-285: the camera, when on, is validated (possibly repaired)
before the z planes are adjusted. -/
def view1Of (view : ViewState) : ViewState :=
  if view.isCameraOn = true then validateCamera view view.rotMat else view

/-- Lines 290-304: with the camera on, if the front distance (eye distance
minus depth) falls below the minimum front distance (at least 15.2 cm,
i.e. 19/125, possibly raised by the view), push the origin back by the
deficit along the view z axis. -/
def frontDistAdjust (v1 : ViewState) (rot : Matrix3) (o1 : Vec3) (dz : ℚ) : Vec3 :=
  if (rot.mulVec (v1.camera.eyePoint.sub o1)).z - dz
       < max (19/125) v1.forceMinFrontDist then
    pushBackZ rot o1
      (max (19/125) v1.forceMinFrontDist - ((rot.mulVec (v1.camera.eyePoint.sub o1)).z - dz))
  else o1

/-- The origin after the optional front-distance adjustment of lines 290-304. -/
def origin2Of (view : ViewState) (od : Vec3 × Vec3) : Vec3 :=
  if view.isCameraOn = true then
    frontDistAdjust (view1Of view) view.rotMat od.1 od.2.z
  else od.1

/-- Lines 283-309: the 3d branch with manipulations allowed — validate the
camera when on, adjust the z planes to the viewed volume, keep the front
plane ahead of the eye, and set `zClipAdjusted` exactly when the final
origin or delta differs from the unexpanded pair. -/
def core3dManip (sq : ℚ → ℚ) (view : ViewState) (planes : List DisplayPlane)
    (o0 d0 : Vec3) : CoreState :=
  { corigin := origin2Of view (adjustZPlanes sq (view1Of view) view.rotMat planes o0 d0),
    cdelta := (adjustZPlanes sq (view1Of view) view.rotMat planes o0 d0).2,
    crot := view.rotMat,
    viewA := view1Of view,
    zClip :=
      if origin2Of view (adjustZPlanes sq (view1Of view) view.rotMat planes o0 d0) = o0
         ∧ (adjustZPlanes sq (view1Of view) view.rotMat planes o0 d0).2 = d0
      then false else true }

/-- Lines 268-314: dispatch on the view kind. -/
def coreOf (sq : ℚ → ℚ) (vp : Viewport) (planes : List DisplayPlane) : CoreState :=
  if vp.view.is3d = true then
    if vp.view.allow3dManipulations = true then
      core3dManip sq vp.view planes vp.view.origin (clampedDelta vp.view)
    else coreNoManip vp.view vp.view.origin (clampedDelta vp.view)
  else core2d vp.view vp.view.origin (clampedDelta vp.view)

/-- Lines 228-239 (`getViewCorners`): the view-coordinate box — x spans the
pixel width, y is inverted (low.y is the pixel height, high.y is 0), and z
spans the fixed range [-32767, 32767]. -/
def viewCornersR (w h : ℚ) : Range3 :=
  ⟨⟨0, h, -32767⟩, ⟨w, 0, 32767⟩⟩

/-- Modelled from the spec: `Map4d.createBoxMap` from the unit NPC cube to the
given box — the affine interpolation map and its inverse, absent when a box
side is degenerate (the map would not be invertible). -/
def createBoxMap (r : Range3) : Option Map4 :=
  if r.high.x - r.low.x = 0 ∨ r.high.y - r.low.y = 0 ∨ r.high.z - r.low.z = 0 then none
  else
    some ⟨fun p => r.fractionToPoint p,
          fun v => ⟨(v.x - r.low.x) / (r.high.x - r.low.x),
                    (v.y - r.low.y) / (r.high.y - r.low.y),
                    (v.z - r.low.z) / (r.high.z - r.low.z)⟩⟩

/-- Lines 221-226 (`calcNpcToView`): the box map from the unit NPC cube to the
view corners, the identity when the box map cannot be built. -/
def calcNpcToView (w h : ℚ) : Map4 :=
  (createBoxMap (viewCornersR w h)).getD Map4.idMap

/-- Lines 241-328: the constructor.  The branches produce a `CoreState`; the
world-to-NPC builder is then consulted with the final rotation, origin and
delta (enforcing the front/back ratio only when no planes are displayed);
failure leaves the identity maps and a zero `frustFraction`. -/
structure ViewingSpace where
  viewOrigin : Vec3
  viewDelta : Vec3
  viewOriginUnexpanded : Vec3
  viewDeltaUnexpanded : Vec3
  rotMat : Matrix3
  zClipAdjusted : Bool
  frustFraction : ℚ
  worldToNpcMap : Map4
  worldToViewMap : Map4
  clientWidth : ℚ
  clientHeight : ℚ
  viewA : ViewState

/-- Lines 316-327: store the final origin/delta, call the world-to-NPC
builder, and either mark the frustum invalid (`frustFraction = 0`) or store
the maps and the returned fraction. -/
def finishSpace (vp : Viewport) (planes : List DisplayPlane) (o0 d0 : Vec3)
    (c : CoreState) : ViewingSpace :=
  { viewOrigin := c.corigin, viewDelta := c.cdelta,
    viewOriginUnexpanded := o0, viewDeltaUnexpanded := d0,
    rotMat := c.crot, zClipAdjusted := c.zClip,
    frustFraction :=
      match (c.viewA.computeWorldToNpc c.crot c.corigin c.cdelta (planes.length == 0)).map with
      | none => 0
      | some _ => (c.viewA.computeWorldToNpc c.crot c.corigin c.cdelta (planes.length == 0)).frustFraction,
    worldToNpcMap :=
      match (c.viewA.computeWorldToNpc c.crot c.corigin c.cdelta (planes.length == 0)).map with
      | none => Map4.idMap
      | some m => m,
    worldToViewMap :=
      match (c.viewA.computeWorldToNpc c.crot c.corigin c.cdelta (planes.length == 0)).map with
      | none => Map4.idMap
      | some m => Map4.compose (calcNpcToView vp.width vp.height) m,
    clientWidth := vp.width, clientHeight := vp.height,
    viewA := c.viewA }

/-- The private constructor `new ViewingSpace(vp, displayedPlanes)`. -/
def mkViewingSpace (sq : ℚ → ℚ) (vp : Viewport) (planes : List DisplayPlane) : ViewingSpace :=
  finishSpace vp planes vp.view.origin (clampedDelta vp.view) (coreOf sq vp planes)

/-- Lines 330-333 (`createFromViewport`): construct from the viewport's own
displayed planes.  The declared return type admits `undefined`, but the body
returns the freshly constructed object unconditionally. -/
def createFromViewport (sq : ℚ → ℚ) (vp : Viewport) : Option ViewingSpace :=
  some (mkViewingSpace sq vp vp.displayedPlanes)

/-- Lines 335-341 (`createFromViewportAndPlane`): construct with one extra
mandatory plane appended, returning nothing exactly when the constructed
space's `frustFraction` is 0. -/
def createFromViewportAndPlane (sq : ℚ → ℚ) (vp : Viewport) (p : DisplayPlane) :
    Option ViewingSpace :=
  if (mkViewingSpace sq vp (vp.displayedPlanes ++ [p])).frustFraction = 0 then none
  else some (mkViewingSpace sq vp (vp.displayedPlanes ++ [p]))

/-- Lines 370-373 (`npcToView`): `getViewCorners().fractionToPoint`. -/
def npcToView (vs : ViewingSpace) (p : Vec3) : Vec3 :=
  (viewCornersR vs.clientWidth vs.clientHeight).fractionToPoint p

/-- An 8-point frustum (TS `Frustum`): its corner list. -/
structure Frustum8 where
  points : List Vec3

/-- Lines 456-465: convert a frustum's NPC points to the requested coordinate
system (view via the corner box, world via the inverse world-to-NPC map, NPC
untouched). -/
def convertSys (vs : ViewingSpace) (sys : CoordSystem) (pts : List Vec3) : List Vec3 :=
  match sys with
  | CoordSystem.view => pts.map (viewCornersR vs.clientWidth vs.clientHeight).fractionToPoint
  | CoordSystem.world => pts.map vs.worldToNpcMap.inv
  | CoordSystem.npc => pts

/-- Lines 435-467 (`getFrustum`): the 8-corner frustum in the chosen system.
For the unadjusted box when z clipping was adjusted, a fresh world-to-NPC map
is recomputed from the unexpanded origin/delta; when that recomputation fails
the NPC-corner box is returned as-is, skipping the coordinate-system
conversion (the early `return box` of line 445). -/
def getFrustum (vs : ViewingSpace) (sys : CoordSystem) (adjustedBox : Bool) : Frustum8 :=
  if adjustedBox = false ∧ vs.zClipAdjusted = true then
    match (vs.viewA.computeWorldToNpc vs.rotMat vs.viewOriginUnexpanded
             vs.viewDeltaUnexpanded true).map with
    | none => ⟨npcCorners⟩
    | some ueMap =>
        ⟨convertSys vs sys ((npcCorners.map ueMap.inv).map vs.worldToNpcMap.fwd)⟩
  else ⟨convertSys vs sys npcCorners⟩

/-! ## Shared concrete inputs for witnesses and counterexamples -/

/-- A stand-in for `Math.sqrt`; no input below ever reaches it. -/
def sq0 : ℚ → ℚ := fun _ => 0

/-- A world-to-NPC builder that always succeeds with the identity map and
frustum fraction 1 (an orthographic view of the unit volume). -/
def npcOkId : Matrix3 → Vec3 → Vec3 → Bool → NpcMapResult :=
  fun _ _ _ _ => ⟨some Map4.idMap, 1⟩

/-- A world-to-NPC builder that always fails (degenerate geometry). -/
def npcNone : Matrix3 → Vec3 → Vec3 → Bool → NpcMapResult :=
  fun _ _ _ _ => ⟨none, 1⟩

/-- A camera at the world origin with a valid focus. -/
def cam0 : Camera := ⟨⟨0, 0, 0⟩, 0, 1, true⟩

/-- A 2d view whose world-to-NPC builder fails. -/
def exView1 : ViewState :=
  { origin := ⟨0, 0, 0⟩, extents := ⟨1, 1, 1⟩, rotMat := Matrix3.idM,
    is3d := false, allow3dManipulations := true, isCameraOn := false,
    camera := cam0, extentLimits := ⟨1, 10⟩, forceMinFrontDist := 0,
    viewedExtents := none, computeWorldToNpc := npcNone }

def exVp1 : Viewport := ⟨exView1, 800, 600, []⟩

/-- A 2d view with z extent 5: construction replaces the depth band but the 2d
branch never sets `zClipAdjusted`. -/
def exView2 : ViewState :=
  { origin := ⟨0, 0, 0⟩, extents := ⟨1, 1, 5⟩, rotMat := Matrix3.idM,
    is3d := false, allow3dManipulations := true, isCameraOn := false,
    camera := cam0, extentLimits := ⟨1, 10⟩, forceMinFrontDist := 0,
    viewedExtents := none, computeWorldToNpc := npcOkId }

def exVp2 : Viewport := ⟨exView2, 800, 600, []⟩

/-- A 3d camera view whose camera reports an invalid focus: construction
repairs (mutates) the camera's eye point and focus distance. -/
def exView3 : ViewState :=
  { origin := ⟨0, 0, 0⟩, extents := ⟨2, 2, 2⟩, rotMat := Matrix3.idM,
    is3d := true, allow3dManipulations := true, isCameraOn := true,
    camera := ⟨⟨0, 0, 0⟩, 0, 1, false⟩, extentLimits := ⟨1, 10⟩, forceMinFrontDist := 0,
    viewedExtents := none, computeWorldToNpc := npcOkId }

def exVp3 : Viewport := ⟨exView3, 800, 600, []⟩

/-- A 2d view with a negative x extent: the unexpanded snapshot is taken after
the absolute value and the clamp. -/
def exView4 : ViewState :=
  { origin := ⟨0, 0, 0⟩, extents := ⟨-3, 1, 1⟩, rotMat := Matrix3.idM,
    is3d := false, allow3dManipulations := true, isCameraOn := false,
    camera := cam0, extentLimits := ⟨1, 10⟩, forceMinFrontDist := 0,
    viewedExtents := none, computeWorldToNpc := npcOkId }

def exVp4 : Viewport := ⟨exView4, 800, 600, []⟩

/-! ## General lemmas about the construction -/

/-- `alignWithRootZ` leaves every field of the view other than the rotation
unchanged (by structure eta in the unchanged case). -/
theorem alignWithRootZ_viewA (view : ViewState) (rot : Matrix3) :
    (alignWithRootZ view rot).2 =
      { view with rotMat := (alignWithRootZ view rot).2.rotMat } := by
  unfold alignWithRootZ
  split_ifs <;> rfl

/-- `view1Of` (camera validation) leaves every field of the view other than
the camera unchanged. -/
theorem view1Of_viewA (view : ViewState) :
    view1Of view = { view with camera := (view1Of view).camera } := by
  unfold view1Of validateCamera
  split_ifs <;> rfl

theorem mk_viewA (sq : ℚ → ℚ) (vp : Viewport) (planes : List DisplayPlane) :
    (mkViewingSpace sq vp planes).viewA = (coreOf sq vp planes).viewA := rfl

theorem mk_viewDelta (sq : ℚ → ℚ) (vp : Viewport) (planes : List DisplayPlane) :
    (mkViewingSpace sq vp planes).viewDelta = (coreOf sq vp planes).cdelta := rfl

theorem mk_viewOrigin (sq : ℚ → ℚ) (vp : Viewport) (planes : List DisplayPlane) :
    (mkViewingSpace sq vp planes).viewOrigin = (coreOf sq vp planes).corigin := rfl

theorem mk_zClip (sq : ℚ → ℚ) (vp : Viewport) (planes : List DisplayPlane) :
    (mkViewingSpace sq vp planes).zClipAdjusted = (coreOf sq vp planes).zClip := rfl

/-! ## C1 -/

/-- C1 (counterexample): `createFromViewport` never checks `frustFraction`: on
a viewport whose world-to-NPC builder fails it still returns the constructed
`ViewingSpace`, whose `frustFraction` is 0 — so the factories do not return
"no object" exactly when `frustFraction` is 0, and a `frustFraction`-0 space
is exposed. -/
theorem C1_createFromViewport_exposes_zero :
    createFromViewport sq0 exVp1 = some (mkViewingSpace sq0 exVp1 exVp1.displayedPlanes)
      ∧ (mkViewingSpace sq0 exVp1 exVp1.displayedPlanes).frustFraction = 0 := by
  constructor
  · rfl
  · norm_num [mkViewingSpace, finishSpace, coreOf, core2d, exVp1, exView1, npcNone,
      alignWithRootZ, IsAlmostEqualVec, Matrix3.rowZvec, Matrix3.idM, Vec3.unitZ,
      clampedDelta, clampQ]

/-- C1 (amended): `createFromViewportAndPlane` returns no object exactly when
the constructed space's `frustFraction` is 0 (and hence never exposes such a
space), while `createFromViewport` always returns the constructed space, even
when its `frustFraction` is 0. -/
theorem C1_factory_frustFraction (sq : ℚ → ℚ) (vp : Viewport) (p : DisplayPlane) :
    (createFromViewportAndPlane sq vp p = none ↔
      (mkViewingSpace sq vp (vp.displayedPlanes ++ [p])).frustFraction = 0)
    ∧ createFromViewport sq vp = some (mkViewingSpace sq vp vp.displayedPlanes) := by
  refine ⟨?_, rfl⟩
  unfold createFromViewportAndPlane
  split_ifs with h <;> simp [h]

/-! ## C2 -/

/-- C2 (counterexample): for a 2d view the constructor replaces the depth band
(`viewDelta ≠ viewDeltaUnexpanded`) yet `zClipAdjusted` stays false, refuting
the claimed equivalence "for any view kind". -/
theorem C2_two_d_view_refutes :
    (mkViewingSpace sq0 exVp2 []).zClipAdjusted = false
      ∧ (mkViewingSpace sq0 exVp2 []).viewDelta
          ≠ (mkViewingSpace sq0 exVp2 []).viewDeltaUnexpanded := by
  norm_num [mkViewingSpace, finishSpace, coreOf, core2d, exVp2, exView2, clampedDelta, clampQ,
    alignWithRootZ, IsAlmostEqualVec, Matrix3.rowZvec, Matrix3.idM, Vec3.unitZ]

/-- C2 (amended): `zClipAdjusted = true` iff the view is 3d with 3d
manipulations allowed AND the final origin or delta differs (exact comparison)
from the unexpanded pair; in the 2d-style branches the flag is always false
even when construction replaced the depth band. -/
theorem C2_zClipAdjusted_iff (sq : ℚ → ℚ) (vp : Viewport) (planes : List DisplayPlane) :
    (mkViewingSpace sq vp planes).zClipAdjusted = true ↔
      (vp.view.is3d = true ∧ vp.view.allow3dManipulations = true ∧
        ((mkViewingSpace sq vp planes).viewOrigin
            ≠ (mkViewingSpace sq vp planes).viewOriginUnexpanded
          ∨ (mkViewingSpace sq vp planes).viewDelta
              ≠ (mkViewingSpace sq vp planes).viewDeltaUnexpanded)) := by
  cases h3 : vp.view.is3d with
  | false => simp [mkViewingSpace, finishSpace, coreOf, core2d, h3]
  | true =>
    cases hm : vp.view.allow3dManipulations with
    | false => simp [mkViewingSpace, finishSpace, coreOf, coreNoManip, h3, hm]
    | true =>
      simp only [mkViewingSpace, finishSpace, coreOf, core3dManip, h3, hm, if_true]
      split_ifs with h
      · simp [h.1, h.2]
      · simp only [not_and_or] at h
        simp [h3, hm]
        tauto

/-! ## C3 -/

/-- C3 (counterexample): constructing from a 3d camera view with an invalid
focus distance mutates the camera: the source view's eye point (and focus
distance) change, so the rotation write-back is not the only input mutation. -/
theorem C3_camera_mutated :
    (mkViewingSpace sq0 exVp3 []).viewA.camera.eyePoint ≠ exVp3.view.camera.eyePoint
      ∧ (mkViewingSpace sq0 exVp3 []).viewA.camera.focusDistance
          ≠ exVp3.view.camera.focusDistance := by
  norm_num [mkViewingSpace, finishSpace, coreOf, core3dManip, view1Of, validateCamera,
    vcFocus, exVp3, exView3, Matrix3.idM, Matrix3.mulTransposeVec, Vec3.add, Vec3.ext_iff]

/-- C3 (amended): construction mutates the source view only through the
rotation write-back and the camera repair — every field of the view other than
the rotation and the camera is preserved. -/
theorem C3_mutation_only_rot_camera (sq : ℚ → ℚ) (vp : Viewport) (planes : List DisplayPlane) :
    (mkViewingSpace sq vp planes).viewA =
      { vp.view with rotMat := (mkViewingSpace sq vp planes).viewA.rotMat,
                     camera := (mkViewingSpace sq vp planes).viewA.camera } := by
  rw [mk_viewA]
  cases h3 : vp.view.is3d with
  | false =>
    have hA : (coreOf sq vp planes).viewA = (alignWithRootZ vp.view vp.view.rotMat).2 := by
      simp [coreOf, core2d, h3]
    rw [hA]
    rw [alignWithRootZ_viewA vp.view vp.view.rotMat]
  | true =>
    cases hm : vp.view.allow3dManipulations with
    | false =>
      have hA : (coreOf sq vp planes).viewA = (alignWithRootZ vp.view vp.view.rotMat).2 := by
        simp [coreOf, coreNoManip, h3, hm]
      rw [hA]
      rw [alignWithRootZ_viewA vp.view vp.view.rotMat]
    | true =>
      have hA : (coreOf sq vp planes).viewA = view1Of vp.view := by
        simp [coreOf, core3dManip, h3, hm]
      rw [hA]
      rw [view1Of_viewA vp.view]

/-! ## C4 -/

/-- C4 (counterexample): with a negative x extent the unexpanded delta
snapshot is the absolute, clamped value, not the view's original extents. -/
theorem C4_delta_unexpanded_clamped :
    (mkViewingSpace sq0 exVp4 []).viewDeltaUnexpanded ≠ exVp4.view.extents := by
  norm_num [mkViewingSpace, finishSpace, exVp4, exView4, clampedDelta, clampQ, Vec3.ext_iff]

/-- C4 (amended): `viewOriginUnexpanded` is the view's original origin,
unmodified; `viewDeltaUnexpanded` is the view's extents after the componentwise
absolute value with x and y clamped to the extent limits (so it is NOT the
unmodified extents when a component is negative or out of range). -/
theorem C4_unexpanded_snapshot (sq : ℚ → ℚ) (vp : Viewport) (planes : List DisplayPlane) :
    (mkViewingSpace sq vp planes).viewOriginUnexpanded = vp.view.origin
    ∧ (mkViewingSpace sq vp planes).viewDeltaUnexpanded =
        ⟨min (max vp.view.extentLimits.emin |vp.view.extents.x|) vp.view.extentLimits.emax,
         min (max vp.view.extentLimits.emin |vp.view.extents.y|) vp.view.extentLimits.emax,
         |vp.view.extents.z|⟩ := by
  exact ⟨rfl, rfl⟩

/-! ## C6 -/

/-- A camera-off 3d view allowing 3d manipulations, with null viewed extents
and a small z extent: `adjustZPlanes` returns immediately on the null range,
so no depth floor is applied. -/
def exView6 : ViewState :=
  { origin := ⟨0, 0, 0⟩, extents := ⟨1, 1, 1/2⟩, rotMat := Matrix3.idM,
    is3d := true, allow3dManipulations := true, isCameraOn := false,
    camera := cam0, extentLimits := ⟨1, 10⟩, forceMinFrontDist := 0,
    viewedExtents := none, computeWorldToNpc := npcOkId }

def exVp6 : Viewport := ⟨exView6, 800, 600, []⟩

/-- A camera-off 3d view with 3d manipulations disallowed and null viewed
extents (the branch to which the depth floor actually belongs). -/
def exView6w : ViewState :=
  { origin := ⟨0, 0, 0⟩, extents := ⟨1, 1, 1/2⟩, rotMat := Matrix3.idM,
    is3d := true, allow3dManipulations := false, isCameraOn := false,
    camera := cam0, extentLimits := ⟨1, 10⟩, forceMinFrontDist := 0,
    viewedExtents := none, computeWorldToNpc := npcOkId }

def exVp6w : Viewport := ⟨exView6w, 800, 600, []⟩

/-- C6 (counterexample): a camera-off 3d view with null viewed extents, no
displayed planes and 3d manipulations allowed keeps its (absolute) z extent
unchanged — here 1/2 < 2 — because `adjustZPlanes` returns as soon as the
extended extents are null; the ≥2 depth floor belongs only to the branch that
disallows 3d manipulations. -/
theorem C6_null_extents_manip_refutes :
    exVp6.view.is3d = true ∧ exVp6.view.allow3dManipulations = true
      ∧ exVp6.view.isCameraOn = false ∧ exVp6.view.viewedExtents = none
      ∧ (mkViewingSpace sq0 exVp6 []).viewDelta.z < 2 := by
  refine ⟨rfl, rfl, rfl, rfl, ?_⟩
  norm_num [mkViewingSpace, finishSpace, coreOf, core3dManip, view1Of, adjustZPlanes,
    extendRangeForDisplayedPlanes, goPlanes, origin2Of, exVp6, exView6, clampedDelta, clampQ,
    abs_of_pos]

/-- C6 (amended): for a 3d view that disallows 3d manipulations, construction
always yields `viewDelta.z ≥ 2` (the ±1-unit depth floor) — with or without a
camera and whatever the viewed extents; in the manipulations-allowed branch a
null viewed-extents range leaves the z extent unchanged instead. -/
theorem C6_depth_floor_no_manip (sq : ℚ → ℚ) (vp : Viewport) (planes : List DisplayPlane)
    (h3 : vp.view.is3d = true) (hm : vp.view.allow3dManipulations = false) :
    2 ≤ (mkViewingSpace sq vp planes).viewDelta.z := by
  rw [mk_viewDelta]
  have hc : coreOf sq vp planes = coreNoManip vp.view vp.view.origin (clampedDelta vp.view) := by
    simp [coreOf, h3, hm]
  rw [hc]
  show 2 ≤ 2 * zMaxOf vp.view
  have h1 : (1 : ℚ) ≤ zMaxOf vp.view := le_max_right _ _
  linarith

/-- C6 (witness): the amended depth floor at a concrete camera-off,
no-manipulations view with null viewed extents. -/
theorem C6_depth_floor_witness : 2 ≤ (mkViewingSpace sq0 exVp6w []).viewDelta.z :=
  C6_depth_floor_no_manip sq0 exVp6w [] rfl rfl

/-! ## C8 -/

/-- A rotation about the x axis by the rational-point angle with
`tan(θ/2) = 1/10^7`: exactly orthonormal, with third row within the
almost-equal tolerance of world-up but not equal to it. -/
def rotEps : Matrix3 :=
  ⟨1, 0, 0,
   0, (10^14 - 1)/(10^14 + 1), (2 * 10^7)/(10^14 + 1),
   0, -((2 * 10^7)/(10^14 + 1)), (10^14 - 1)/(10^14 + 1)⟩

/-- A 2d view whose rotation's third row is within tolerance of world-up but
not equal to it: `alignWithRootZ` is a no-op. -/
def exView8 : ViewState :=
  { origin := ⟨0, 0, 0⟩, extents := ⟨1, 1, 1⟩, rotMat := rotEps,
    is3d := false, allow3dManipulations := true, isCameraOn := false,
    camera := cam0, extentLimits := ⟨1, 10⟩, forceMinFrontDist := 0,
    viewedExtents := none, computeWorldToNpc := npcOkId }

def exVp8 : Viewport := ⟨exView8, 800, 600, []⟩

theorem isAlmostEqualVec_refl (v : Vec3) : IsAlmostEqualVec v v := by
  unfold IsAlmostEqualVec
  norm_num

theorem mk_rot (sq : ℚ → ℚ) (vp : Viewport) (planes : List DisplayPlane) :
    (mkViewingSpace sq vp planes).rotMat = (coreOf sq vp planes).crot := rfl

/-- C8 (counterexample): a 2d view whose rotation's third row lies within the
almost-equal tolerance of world-up without being equal to it is left
unchanged by `alignWithRootZ`, so after construction the third row does NOT
equal the world-up unit Z vector. -/
theorem C8_tolerance_refutes :
    exVp8.view.is3d = false
      ∧ (mkViewingSpace sq0 exVp8 []).rotMat.rowZvec ≠ Vec3.unitZ := by
  refine ⟨rfl, ?_⟩
  norm_num [mkViewingSpace, finishSpace, coreOf, core2d, alignWithRootZ, IsAlmostEqualVec,
    Matrix3.rowZvec, rotEps, Vec3.unitZ, exVp8, exView8, abs_lt, Vec3.ext_iff]

/-- C8 (amended): for every 2d view, after construction `viewDelta.z` is
exactly 2·oneMeter and `viewOrigin.z` exactly -oneMeter (oneMeter = 1), and
the rotation's third row is within the almost-equal tolerance of world-up; it
equals world-up exactly whenever the source rotation's third row was not
already within that tolerance (the realignment case), but a third row already
within tolerance is left untouched and need not equal world-up. -/
theorem C8_two_d_depth_and_rot (sq : ℚ → ℚ) (vp : Viewport) (planes : List DisplayPlane)
    (h2 : vp.view.is3d = false) :
    (mkViewingSpace sq vp planes).viewDelta.z = 2
    ∧ (mkViewingSpace sq vp planes).viewOrigin.z = -1
    ∧ IsAlmostEqualVec Vec3.unitZ (mkViewingSpace sq vp planes).rotMat.rowZvec
    ∧ (¬ IsAlmostEqualVec Vec3.unitZ vp.view.rotMat.rowZvec →
        (mkViewingSpace sq vp planes).rotMat.rowZvec = Vec3.unitZ) := by
  have hc : coreOf sq vp planes = core2d vp.view vp.view.origin (clampedDelta vp.view) := by
    simp [coreOf, h2]
  refine ⟨?_, ?_, ?_, ?_⟩
  · rw [mk_viewDelta, hc]; rfl
  · rw [mk_viewOrigin, hc]; rfl
  · rw [mk_rot, hc]
    show IsAlmostEqualVec Vec3.unitZ ((alignWithRootZ vp.view vp.view.rotMat).1).rowZvec
    unfold alignWithRootZ
    split_ifs with h
    · exact h
    · exact isAlmostEqualVec_refl Vec3.unitZ
  · intro hne
    rw [mk_rot, hc]
    show ((alignWithRootZ vp.view vp.view.rotMat).1).rowZvec = Vec3.unitZ
    unfold alignWithRootZ
    rw [if_neg hne]
    rfl

/-- C8 (witness): the amended statement at a concrete 2d view with the
identity rotation. -/
theorem C8_two_d_witness :
    (mkViewingSpace sq0 exVp2 []).viewDelta.z = 2
    ∧ (mkViewingSpace sq0 exVp2 []).viewOrigin.z = -1
    ∧ IsAlmostEqualVec Vec3.unitZ (mkViewingSpace sq0 exVp2 []).rotMat.rowZvec
    ∧ (¬ IsAlmostEqualVec Vec3.unitZ exVp2.view.rotMat.rowZvec →
        (mkViewingSpace sq0 exVp2 []).rotMat.rowZvec = Vec3.unitZ) :=
  C8_two_d_depth_and_rot sq0 exVp2 [] rfl

/-! ## Matrix algebra for the close-eye clamp (C5) -/

theorem mulTransposeVec_eq (m : Matrix3) (v : Vec3) :
    m.mulTransposeVec v = m.transposeM.mulVec v := rfl

theorem mulVec_mul (a b : Matrix3) (v : Vec3) :
    (a.mul b).mulVec v = a.mulVec (b.mulVec v) := by
  ext <;> simp [Matrix3.mul, Matrix3.mulVec] <;> ring

theorem idM_mulVec (v : Vec3) : Matrix3.idM.mulVec v = v := by
  ext <;> simp [Matrix3.idM, Matrix3.mulVec]

/-- With `MᵀM = 1`, applying `M` then `Mᵀ` to a point is the identity. -/
theorem orth_cancel (m : Matrix3) (h : Matrix3.mul m.transposeM m = Matrix3.idM) (v : Vec3) :
    m.mulTransposeVec (m.mulVec v) = v := by
  rw [mulTransposeVec_eq, ← mulVec_mul, h, idM_mulVec]

/-- With `MMᵀ = 1`, applying `Mᵀ` then `M` to a point is the identity. -/
theorem orth_cancel2 (m : Matrix3) (h : Matrix3.mul m m.transposeM = Matrix3.idM) (v : Vec3) :
    m.mulVec (m.mulTransposeVec v) = v := by
  rw [mulTransposeVec_eq, ← mulVec_mul, h, idM_mulVec]

theorem mulTransposeVec_sub (m : Matrix3) (u v : Vec3) :
    m.mulTransposeVec (u.sub v) = (m.mulTransposeVec u).sub (m.mulTransposeVec v) := by
  ext <;> simp [Matrix3.mulTransposeVec, Vec3.sub] <;> ring

theorem mulTransposeVec_smul (m : Matrix3) (q : ℚ) (v : Vec3) :
    m.mulTransposeVec (Vec3.smul q v) = Vec3.smul q (m.mulTransposeVec v) := by
  ext <;> simp [Matrix3.mulTransposeVec, Vec3.smul] <;> ring

theorem mulVec_add (m : Matrix3) (u v : Vec3) :
    m.mulVec (u.add v) = (m.mulVec u).add (m.mulVec v) := by
  ext <;> simp [Matrix3.mulVec, Vec3.add] <;> ring

theorem mulVec_smul (m : Matrix3) (q : ℚ) (v : Vec3) :
    m.mulVec (Vec3.smul q v) = Vec3.smul q (m.mulVec v) := by
  ext <;> simp [Matrix3.mulVec, Vec3.smul] <;> ring

theorem mulTransposeVec_unitZ (m : Matrix3) :
    m.mulTransposeVec Vec3.unitZ = m.rowZvec := by
  ext <;> simp [Matrix3.mulTransposeVec, Matrix3.rowZvec, Vec3.unitZ]

/-- For an orthonormal rotation, the push-back of lines 161-163 subtracts the
push amount times the world-space view z axis (the rotation's third row). -/
theorem pushBackZ_eq (m : Matrix3) (o : Vec3) (amt : ℚ)
    (h : Matrix3.mul m.transposeM m = Matrix3.idM) :
    pushBackZ m o amt = o.sub (Vec3.smul amt m.rowZvec) := by
  unfold pushBackZ
  have hv : (⟨(m.mulVec o).x, (m.mulVec o).y, (m.mulVec o).z - amt⟩ : Vec3)
      = (m.mulVec o).sub (Vec3.smul amt Vec3.unitZ) := by
    ext <;> simp [Vec3.sub, Vec3.smul, Vec3.unitZ]
  rw [hv, mulTransposeVec_sub, orth_cancel m h, mulTransposeVec_smul, mulTransposeVec_unitZ]

theorem sub_sub_add (a b w : Vec3) : a.sub (b.sub w) = (a.sub b).add w := by
  ext <;> simp [Vec3.sub, Vec3.add] <;> ring

/-! ## C5 -/

/-- C5: in `adjustZPlanes` for a 3d view with the camera on, an orthonormal
rotation and non-null extended viewed extents, when the eye-to-origin view z
component is below 1 the function returns early with `delta.z` exactly 1 and
the origin pushed back along the view z axis by exactly `2 - eyeOrg.z`, which
puts the eye exactly 2 units in front of the returned origin. -/
theorem C5_close_eye_clamp (sq : ℚ → ℚ) (view : ViewState) (rot : Matrix3)
    (planes : List DisplayPlane) (origin delta : Vec3) (ext : Range3)
    (h3 : view.is3d = true) (hcam : view.isCameraOn = true)
    (horth : rot.IsOrthonormal)
    (hext : extendRangeForDisplayedPlanes sq view rot origin delta planes view.viewedExtents
              = some ext)
    (hnn : ¬ ext.IsNullR)
    (heye : (rot.mulVec (view.camera.eyePoint.sub
              (zSetTo rot origin (transformedRange rot ext).low.z))).z < 1) :
    adjustZPlanes sq view rot planes origin delta
      = ((zSetTo rot origin (transformedRange rot ext).low.z).sub
           (Vec3.smul
             (2 - (rot.mulVec (view.camera.eyePoint.sub
                    (zSetTo rot origin (transformedRange rot ext).low.z))).z)
             rot.rowZvec),
         ⟨delta.x, delta.y, 1⟩)
    ∧ (rot.mulVec (view.camera.eyePoint.sub
         (adjustZPlanes sq view rot planes origin delta).1)).z = 2 := by
  have hstep : adjustZPlanes sq view rot planes origin delta
      = (pushBackZ rot (zSetTo rot origin (transformedRange rot ext).low.z)
           (2 - (rot.mulVec (view.camera.eyePoint.sub
                  (zSetTo rot origin (transformedRange rot ext).low.z))).z),
         ⟨delta.x, delta.y, 1⟩) := by
    unfold adjustZPlanes
    rw [h3]
    simp only [Bool.true_eq_false, if_false]
    rw [hext]
    simp only [if_neg hnn]
    unfold adjustZCamera
    rw [hcam]
    simp only [Bool.true_eq_false, if_false]
    rw [if_pos heye]
  have hpush := pushBackZ_eq rot (zSetTo rot origin (transformedRange rot ext).low.z)
      (2 - (rot.mulVec (view.camera.eyePoint.sub
        (zSetTo rot origin (transformedRange rot ext).low.z))).z) horth.1
  constructor
  · rw [hstep, hpush]
  · rw [hstep]
    show (rot.mulVec (view.camera.eyePoint.sub (pushBackZ rot _ _))).z = 2
    rw [hpush, sub_sub_add, mulVec_add, mulVec_smul, ← mulTransposeVec_unitZ,
        orth_cancel2 rot horth.2]
    simp [Vec3.add, Vec3.smul, Vec3.unitZ]

/-- A 3d camera view whose eye sits only half a unit in front of the viewed
extents: the close-eye clamp fires. -/
def exView5 : ViewState :=
  { origin := ⟨0, 0, 0⟩, extents := ⟨2, 2, 2⟩, rotMat := Matrix3.idM,
    is3d := true, allow3dManipulations := true, isCameraOn := true,
    camera := ⟨⟨1/2, 1/2, 1/2⟩, 1, 1, true⟩, extentLimits := ⟨1, 10⟩, forceMinFrontDist := 0,
    viewedExtents := some ⟨⟨0, 0, 0⟩, ⟨1, 1, 1⟩⟩, computeWorldToNpc := npcOkId }

/-- C5 (witness): the clamp at a concrete view — the origin lands at
`(0, 0, -3/2)`, the delta at `(2, 2, 1)`, and the eye ends exactly 2 units in
front of the origin. -/
theorem C5_close_eye_witness :
    adjustZPlanes sq0 exView5 Matrix3.idM [] ⟨0, 0, 0⟩ ⟨2, 2, 2⟩ = (⟨0, 0, -3/2⟩, ⟨2, 2, 1⟩)
    ∧ (Matrix3.idM.mulVec (exView5.camera.eyePoint.sub
        (adjustZPlanes sq0 exView5 Matrix3.idM [] ⟨0, 0, 0⟩ ⟨2, 2, 2⟩).1)).z = 2 := by
  have h := C5_close_eye_clamp sq0 exView5 Matrix3.idM [] ⟨0, 0, 0⟩ ⟨2, 2, 2⟩
    ⟨⟨0, 0, 0⟩, ⟨1, 1, 1⟩⟩ rfl rfl
    (by constructor <;> (ext <;> norm_num [Matrix3.mul, Matrix3.transposeM, Matrix3.idM]))
    (by norm_num [extendRangeForDisplayedPlanes, goPlanes, exView5])
    (by norm_num [Range3.IsNullR])
    (by norm_num [zSetTo, transformedRange, rangeOfFold, List.foldl, Range3.extendPt,
          Matrix3.idM, Matrix3.mulVec, Matrix3.mulTransposeVec, Vec3.sub, exView5])
  refine ⟨?_, h.2⟩
  rw [h.1]
  norm_num [zSetTo, transformedRange, rangeOfFold, List.foldl, Range3.extendPt,
    Matrix3.idM, Matrix3.mulVec, Matrix3.mulTransposeVec, Matrix3.rowZvec,
    Vec3.sub, Vec3.smul, exView5, Prod.ext_iff, Vec3.ext_iff]

/-! ## Bounds on the constructed delta (C7) -/

theorem clampQ_le_emax (l : ExtentLimits) (v : ℚ) : clampQ l v ≤ l.emax :=
  min_le_right _ _

theorem emin_le_clampQ (l : ExtentLimits) (v : ℚ) (h1 : l.emin ≤ l.emax) :
    l.emin ≤ clampQ l v :=
  le_min (le_max_left _ _) h1

theorem clampQ_nonneg (l : ExtentLimits) (v : ℚ) (h0 : 0 ≤ l.emin)
    (h1 : l.emin ≤ l.emax) : 0 ≤ clampQ l v :=
  h0.trans (emin_le_clampQ l v h1)

/-- Folding `extendPt` preserves a well-ordered z band. -/
theorem foldl_extendPt_z (ps : List Vec3) :
    ∀ r : Range3, r.low.z ≤ r.high.z →
      (ps.foldl Range3.extendPt r).low.z ≤ (ps.foldl Range3.extendPt r).high.z := by
  induction ps with
  | nil => intro r h; exact h
  | cons q qs ih =>
    intro r h
    exact ih _ (le_trans (min_le_left _ _) (le_trans h (le_max_left _ _)))

/-- The view-aligned range of the rotated corners has a non-negative depth. -/
theorem transformedRange_z (rot : Matrix3) (r : Range3) :
    (transformedRange rot r).low.z ≤ (transformedRange rot r).high.z := by
  unfold transformedRange rangeOfFold
  exact foldl_extendPt_z _ _ le_rfl

/-- `adjustZPlanes` never touches the x and y delta components. -/
theorem adjustZPlanes_xy (sq : ℚ → ℚ) (view : ViewState) (rot : Matrix3)
    (planes : List DisplayPlane) (o d : Vec3) :
    ((adjustZPlanes sq view rot planes o d).2).x = d.x
    ∧ ((adjustZPlanes sq view rot planes o d).2).y = d.y := by
  unfold adjustZPlanes adjustZCamera
  split
  · exact ⟨rfl, rfl⟩
  · split
    · exact ⟨rfl, rfl⟩
    · split
      · exact ⟨rfl, rfl⟩
      · split
        · exact ⟨rfl, rfl⟩
        · split
          · exact ⟨rfl, rfl⟩
          · split
            · exact ⟨rfl, rfl⟩
            · exact ⟨rfl, rfl⟩

/-- `adjustZPlanes` keeps the z delta non-negative: it leaves it alone, takes
a range depth (high minus low of a folded range), clamps to 1, or clamps to an
eye distance known to be at least 1. -/
theorem adjustZPlanes_z_nonneg (sq : ℚ → ℚ) (view : ViewState) (rot : Matrix3)
    (planes : List DisplayPlane) (o d : Vec3) (hd : 0 ≤ d.z) :
    0 ≤ ((adjustZPlanes sq view rot planes o d).2).z := by
  unfold adjustZPlanes
  split
  · exact hd
  · split
    · exact hd
    · next ext heq =>
      split
      · exact hd
      · unfold adjustZCamera
        split
        · simpa using sub_nonneg.mpr (transformedRange_z rot ext)
        · split
          · norm_num
          · split
            · next heye _ =>
              have h1 : (1:ℚ) ≤ (rot.mulVec (view.camera.eyePoint.sub
                  (zSetTo rot o (transformedRange rot ext).low.z))).z := not_lt.mp heye
              simpa using le_trans zero_le_one h1
            · simpa using sub_nonneg.mpr (transformedRange_z rot ext)

theorem coreOf_delta_x (sq : ℚ → ℚ) (vp : Viewport) (planes : List DisplayPlane) :
    (coreOf sq vp planes).cdelta.x = clampQ vp.view.extentLimits |vp.view.extents.x| := by
  unfold coreOf
  split
  · split
    · exact (adjustZPlanes_xy sq (view1Of vp.view) vp.view.rotMat planes vp.view.origin
        (clampedDelta vp.view)).1
    · rfl
  · rfl

theorem coreOf_delta_y (sq : ℚ → ℚ) (vp : Viewport) (planes : List DisplayPlane) :
    (coreOf sq vp planes).cdelta.y = clampQ vp.view.extentLimits |vp.view.extents.y| := by
  unfold coreOf
  split
  · split
    · exact (adjustZPlanes_xy sq (view1Of vp.view) vp.view.rotMat planes vp.view.origin
        (clampedDelta vp.view)).2
    · rfl
  · rfl

theorem coreOf_delta_z_nonneg (sq : ℚ → ℚ) (vp : Viewport) (planes : List DisplayPlane) :
    0 ≤ (coreOf sq vp planes).cdelta.z := by
  unfold coreOf
  split
  · split
    · exact adjustZPlanes_z_nonneg sq (view1Of vp.view) vp.view.rotMat planes vp.view.origin
        (clampedDelta vp.view) (abs_nonneg _)
    · show (0:ℚ) ≤ 2 * zMaxOf vp.view
      have h1 : (1:ℚ) ≤ zMaxOf vp.view := le_max_right _ _
      linarith
  · show (0:ℚ) ≤ 2
    norm_num

/-! ## C7 -/

/-- C7: for valid extent limits (0 ≤ min ≤ max), every constructed
ViewingSpace has all three `viewDelta` components non-negative, with the x and
y components inside the configured extent-limit range. -/
theorem C7_viewDelta_bounds (sq : ℚ → ℚ) (vp : Viewport) (planes : List DisplayPlane)
    (h0 : 0 ≤ vp.view.extentLimits.emin)
    (h1 : vp.view.extentLimits.emin ≤ vp.view.extentLimits.emax) :
    (0 ≤ (mkViewingSpace sq vp planes).viewDelta.x
      ∧ 0 ≤ (mkViewingSpace sq vp planes).viewDelta.y
      ∧ 0 ≤ (mkViewingSpace sq vp planes).viewDelta.z)
    ∧ (vp.view.extentLimits.emin ≤ (mkViewingSpace sq vp planes).viewDelta.x
      ∧ (mkViewingSpace sq vp planes).viewDelta.x ≤ vp.view.extentLimits.emax)
    ∧ (vp.view.extentLimits.emin ≤ (mkViewingSpace sq vp planes).viewDelta.y
      ∧ (mkViewingSpace sq vp planes).viewDelta.y ≤ vp.view.extentLimits.emax) := by
  rw [mk_viewDelta, coreOf_delta_x, coreOf_delta_y]
  refine ⟨⟨clampQ_nonneg _ _ h0 h1, clampQ_nonneg _ _ h0 h1, ?_⟩,
    ⟨emin_le_clampQ _ _ h1, clampQ_le_emax _ _⟩,
    ⟨emin_le_clampQ _ _ h1, clampQ_le_emax _ _⟩⟩
  exact coreOf_delta_z_nonneg sq vp planes

/-- C7 (witness): the bounds at a concrete 2d viewport with limits [1, 10]. -/
theorem C7_viewDelta_witness :
    (0 ≤ (mkViewingSpace sq0 exVp2 []).viewDelta.x
      ∧ 0 ≤ (mkViewingSpace sq0 exVp2 []).viewDelta.y
      ∧ 0 ≤ (mkViewingSpace sq0 exVp2 []).viewDelta.z)
    ∧ (exVp2.view.extentLimits.emin ≤ (mkViewingSpace sq0 exVp2 []).viewDelta.x
      ∧ (mkViewingSpace sq0 exVp2 []).viewDelta.x ≤ exVp2.view.extentLimits.emax)
    ∧ (exVp2.view.extentLimits.emin ≤ (mkViewingSpace sq0 exVp2 []).viewDelta.y
      ∧ (mkViewingSpace sq0 exVp2 []).viewDelta.y ≤ exVp2.view.extentLimits.emax) :=
  C7_viewDelta_bounds sq0 exVp2 [] (by norm_num [exVp2, exView2]) (by norm_num [exVp2, exView2])

/-! ## C9 -/

/-- C9: for every constructed ViewingSpace with a non-degenerate pixel
rectangle, the NPC-to-View mapping is the affine box map from the unit NPC
cube to the corners low = (0, pixelHeight, -32767), high = (pixelWidth, 0,
32767): x scales by the width, y is inverted (NPC 0 ↦ pixelHeight, NPC 1 ↦ 0)
and z spans exactly [-32767, 32767]; the `npcToView` query agrees pointwise. -/
theorem C9_npcToView_boxmap (sq : ℚ → ℚ) (vp : Viewport) (planes : List DisplayPlane)
    (p : Vec3) (hw : vp.width ≠ 0) (hh : vp.height ≠ 0) :
    viewCornersR (mkViewingSpace sq vp planes).clientWidth
        (mkViewingSpace sq vp planes).clientHeight
      = ⟨⟨0, vp.height, -32767⟩, ⟨vp.width, 0, 32767⟩⟩
    ∧ (calcNpcToView (mkViewingSpace sq vp planes).clientWidth
         (mkViewingSpace sq vp planes).clientHeight).fwd p
        = ⟨vp.width * p.x, vp.height * (1 - p.y), -32767 + 65534 * p.z⟩
    ∧ npcToView (mkViewingSpace sq vp planes) p
        = ⟨vp.width * p.x, vp.height * (1 - p.y), -32767 + 65534 * p.z⟩ := by
  have hfrac : (viewCornersR vp.width vp.height).fractionToPoint p
      = ⟨vp.width * p.x, vp.height * (1 - p.y), -32767 + 65534 * p.z⟩ := by
    ext <;> simp [viewCornersR, Range3.fractionToPoint] <;> ring
  have hcond : ¬((viewCornersR vp.width vp.height).high.x
        - (viewCornersR vp.width vp.height).low.x = 0
      ∨ (viewCornersR vp.width vp.height).high.y
        - (viewCornersR vp.width vp.height).low.y = 0
      ∨ (viewCornersR vp.width vp.height).high.z
        - (viewCornersR vp.width vp.height).low.z = 0) := by
    push_neg
    refine ⟨by simpa [viewCornersR] using hw, ?_, by norm_num [viewCornersR]⟩
    simpa [viewCornersR] using hh
  refine ⟨rfl, ?_, hfrac⟩
  show (calcNpcToView vp.width vp.height).fwd p = _
  unfold calcNpcToView createBoxMap
  rw [if_neg hcond]
  exact hfrac

/-- C9 (witness): the box map at an 800×600 viewport and the NPC point
(1/4, 1/4, 1/2). -/
theorem C9_npcToView_witness :
    viewCornersR (mkViewingSpace sq0 exVp2 []).clientWidth
        (mkViewingSpace sq0 exVp2 []).clientHeight
      = ⟨⟨0, exVp2.height, -32767⟩, ⟨exVp2.width, 0, 32767⟩⟩
    ∧ (calcNpcToView (mkViewingSpace sq0 exVp2 []).clientWidth
         (mkViewingSpace sq0 exVp2 []).clientHeight).fwd ⟨1/4, 1/4, 1/2⟩
        = ⟨exVp2.width * (1/4), exVp2.height * (1 - 1/4), -32767 + 65534 * (1/2)⟩
    ∧ npcToView (mkViewingSpace sq0 exVp2 []) ⟨1/4, 1/4, 1/2⟩
        = ⟨exVp2.width * (1/4), exVp2.height * (1 - 1/4), -32767 + 65534 * (1/2)⟩ :=
  C9_npcToView_boxmap sq0 exVp2 [] ⟨1/4, 1/4, 1/2⟩
    (by norm_num [exVp2]) (by norm_num [exVp2])

/-! ## C10 -/

/-- C10: if `getFrustum` asks for the unadjusted box of a space whose z clip
was adjusted and the recomputation of the world-to-NPC map from the unexpanded
origin/delta fails, the frustum returned still holds the unit-NPC-cube
corners, with no conversion to the requested coordinate system (the early
`return box` of line 445) — for World and View requests alike. -/
theorem C10_getFrustum_early_return (vs : ViewingSpace) (sys : CoordSystem)
    (hz : vs.zClipAdjusted = true)
    (hm : (vs.viewA.computeWorldToNpc vs.rotMat vs.viewOriginUnexpanded
            vs.viewDeltaUnexpanded true).map = none) :
    getFrustum vs sys false = ⟨npcCorners⟩ := by
  unfold getFrustum
  rw [if_pos ⟨rfl, hz⟩, hm]

/-- A 3d view whose z range grows from 2 to 5 during construction (so
`zClipAdjusted` is set) and whose world-to-NPC builder succeeds only on the
expanded delta: the unexpanded recomputation in `getFrustum` fails. -/
def npc10 : Matrix3 → Vec3 → Vec3 → Bool → NpcMapResult :=
  fun _ _ d _ => if d.z = 5 then ⟨some Map4.idMap, 1⟩ else ⟨none, 1⟩

def exView10 : ViewState :=
  { origin := ⟨0, 0, 0⟩, extents := ⟨2, 2, 2⟩, rotMat := Matrix3.idM,
    is3d := true, allow3dManipulations := true, isCameraOn := false,
    camera := cam0, extentLimits := ⟨1, 10⟩, forceMinFrontDist := 0,
    viewedExtents := some ⟨⟨0, 0, 0⟩, ⟨2, 2, 5⟩⟩, computeWorldToNpc := npc10 }

def exVp10 : Viewport := ⟨exView10, 800, 600, []⟩

set_option maxHeartbeats 1600000 in
/-- C10 (witness): the early return at the concrete space above, asked for
World coordinates. -/
theorem C10_getFrustum_witness :
    getFrustum (mkViewingSpace sq0 exVp10 []) CoordSystem.world false = ⟨npcCorners⟩ :=
  C10_getFrustum_early_return (mkViewingSpace sq0 exVp10 []) CoordSystem.world
    (by norm_num [mkViewingSpace, finishSpace, coreOf, core3dManip, view1Of, origin2Of,
      adjustZPlanes, extendRangeForDisplayedPlanes, goPlanes, adjustZCamera, zSetTo,
      transformedRange, rangeOfFold, List.foldl, Range3.extendPt, Range3.IsNullR,
      exVp10, exView10, npc10, cam0, clampedDelta, clampQ, Matrix3.idM, Matrix3.mulVec,
      Matrix3.mulTransposeVec, Vec3.sub, Vec3.zero])
    (by norm_num [mkViewingSpace, finishSpace, coreOf, core3dManip, view1Of, origin2Of,
      adjustZPlanes, extendRangeForDisplayedPlanes, goPlanes, adjustZCamera, zSetTo,
      transformedRange, rangeOfFold, List.foldl, Range3.extendPt, Range3.IsNullR,
      exVp10, exView10, npc10, cam0, clampedDelta, clampQ, Matrix3.idM, Matrix3.mulVec,
      Matrix3.mulTransposeVec, Vec3.sub, Vec3.zero])

end VSpace
